import Mathlib

/-!
Verification development for the DataInsightStudio analytics dashboard.

The Python source under `src/utils/` is shallowly embedded:
columns are lists of optional values (`none` models a missing value /
NaN cell), pandas float semantics that matter (division by zero,
non-finite results, NaN-poisoned comparisons) are made explicit, and
fallible code returns `Except`.
-/

set_option maxRecDepth 4000

/-- A missing-aware column: `none` is a NaN / missing cell. -/
def dropNa {α : Type} (col : List (Option α)) : List α :=
  col.filterMap id

namespace Classifier

/-- A pandas cell value for non-numeric-dtype columns: either a number
or a string, as relevant to `nunique` counting. -/
inductive PyVal where
  | num (q : ℚ)
  | str (s : String)
deriving DecidableEq, Repr

/-- The pandas dtype of a column, as tested by
`pd.api.types.is_numeric_dtype` / `is_datetime64_dtype` in
`get_column_types` (src/utils/data_processor.py). -/
inductive Dtype where
  | numeric
  | datetime
  | object
deriving DecidableEq, Repr

/-- A column as seen by the classifier: its dtype and its cells. -/
structure PColumn where
  dtype : Dtype
  values : List (Option PyVal)
deriving DecidableEq, Repr

/-- The four semantic column types produced by `get_column_types`. -/
inductive ColType where
  | numeric
  | categorical
  | datetime
  | text
deriving DecidableEq, Repr

/-- `Series.nunique()`: number of distinct non-missing values. -/
def nunique (vs : List (Option PyVal)) : ℕ :=
  (dropNa vs).dedup.length

/-- One iteration of the loop in `get_column_types`
(src/utils/data_processor.py lines 71-88).  Python's `or` is
short-circuiting, so `unique_count / len(data)` is evaluated only when
`unique_count < 10` fails; evaluating it on an empty table would raise
`ZeroDivisionError`, modelled by the `Except.error` branch. -/
def classifyColumn (c : PColumn) : Except String ColType :=
  match c.dtype with
  | Dtype.numeric => Except.ok ColType.numeric
  | Dtype.datetime => Except.ok ColType.datetime
  | Dtype.object =>
    let u := nunique c.values
    let n := c.values.length
    if u < 10 then Except.ok ColType.categorical
    else if n = 0 then Except.error "ZeroDivisionError"
    else if (u : ℚ) / (n : ℚ) < 1/20 then Except.ok ColType.categorical
    else Except.ok ColType.text

/-- The dictionary built by `get_column_types`: the four name lists,
in column order. -/
structure ColumnTypesDict where
  numeric : List String
  categorical : List String
  datetime : List String
  text : List String
deriving DecidableEq, Repr

/-- Append a classified column name to the bucket of its type. -/
def addToDict (nm : String) (t : ColType) (d : ColumnTypesDict) : ColumnTypesDict :=
  match t with
  | ColType.numeric => { d with numeric := nm :: d.numeric }
  | ColType.categorical => { d with categorical := nm :: d.categorical }
  | ColType.datetime => { d with datetime := nm :: d.datetime }
  | ColType.text => { d with text := nm :: d.text }

/-- `get_column_types(data)`: classify every column; an uncaught
`ZeroDivisionError` in any column aborts the whole call. -/
def getColumnTypes : List (String × PColumn) → Except String ColumnTypesDict
  | [] => Except.ok ⟨[], [], [], []⟩
  | (nm, c) :: rest => do
    let t ← classifyColumn c
    let d ← getColumnTypes rest
    pure (addToDict nm t d)

end Classifier

namespace Classifier

/-- Claim C1, counterexample: a numeric-dtype column with 2 (< 10)
distinct values is classified `numeric`, not `categorical`: the dtype
tests run before the distinct-value test. -/
theorem classifyColumn_lt10_numeric_counterexample :
    classifyColumn ⟨Dtype.numeric, [some (PyVal.num 1), some (PyVal.num 2)]⟩ =
      Except.ok ColType.numeric ∧
    nunique [some (PyVal.num 1), some (PyVal.num 2)] < 10 ∧
    ColType.numeric ≠ ColType.categorical := by
  refine ⟨rfl, ?_, by decide⟩
  decide

/-- Claim C1 (amended): for every column that is neither numeric-dtype
nor datetime-dtype, fewer than 10 distinct non-missing values forces
the classification `categorical`, whatever the table size. -/
theorem classifyColumn_object_lt10_categorical (c : PColumn)
    (hd : c.dtype = Dtype.object) (hu : nunique c.values < 10) :
    classifyColumn c = Except.ok ColType.categorical := by
  unfold classifyColumn
  rw [hd]
  simp [hu]

/-- Claim C1 witness: a concrete object-dtype column with one distinct
value is classified `categorical`. -/
theorem classifyColumn_object_lt10_categorical_witness :
    classifyColumn ⟨Dtype.object, [some (PyVal.str "x"), some (PyVal.str "x")]⟩ =
      Except.ok ColType.categorical :=
  classifyColumn_object_lt10_categorical
    ⟨Dtype.object, [some (PyVal.str "x"), some (PyVal.str "x")]⟩ rfl (by decide)

/-- Claim C7, counterexample: in a zero-row table a numeric-dtype
column (u = 0 distinct non-missing values) is classified `numeric`,
not `categorical`. -/
theorem classify_empty_numeric_counterexample :
    classifyColumn ⟨Dtype.numeric, []⟩ = Except.ok ColType.numeric ∧
    nunique ([] : List (Option PyVal)) = 0 ∧
    ColType.numeric ≠ ColType.categorical := by
  exact ⟨rfl, rfl, by decide⟩

/-- Every column of a zero-row table classifies without raising. -/
theorem classifyColumn_empty_ok (c : PColumn) (h : c.values.length = 0) :
    ∃ t, classifyColumn c = Except.ok t := by
  unfold classifyColumn
  cases hd : c.dtype with
  | numeric => exact ⟨ColType.numeric, rfl⟩
  | datetime => exact ⟨ColType.datetime, rfl⟩
  | object =>
    refine ⟨ColType.categorical, ?_⟩
    have hv : c.values = [] := List.length_eq_zero.mp h
    have hu : nunique c.values < 10 := by
      rw [hv]; decide
    simp [hu]

/-- Claim C7 (amended): classifying the columns of a zero-row table
never divides by zero (the `u < 10` test short-circuits Python's `or`
before `u / n` is evaluated), and every object-dtype column — the only
kind that reaches the distinct-value rule — is classified
`categorical` when `u = 0`. -/
theorem getColumnTypes_empty_table_safe (cols : List (String × Classifier.PColumn))
    (h : ∀ p ∈ cols, (Prod.snd p).values.length = 0) :
    (∃ d, getColumnTypes cols = Except.ok d) ∧
    (∀ p ∈ cols, (Prod.snd p).dtype = Dtype.object →
      classifyColumn (Prod.snd p) = Except.ok ColType.categorical) := by
  constructor
  · induction cols with
    | nil => exact ⟨⟨[], [], [], []⟩, rfl⟩
    | cons hd tl ih =>
      obtain ⟨t, ht⟩ := classifyColumn_empty_ok hd.2 (h hd (by simp))
      obtain ⟨d, hd'⟩ := ih (fun p hp => h p (by simp [hp]))
      exact ⟨addToDict hd.1 t d,
        by simp [getColumnTypes, ht, hd', bind, Except.bind, pure, Except.pure]⟩
  · intro p hp hobj
    apply classifyColumn_object_lt10_categorical _ hobj
    have hv : (Prod.snd p).values = [] := List.length_eq_zero.mp (h p hp)
    rw [hv]; decide

/-- Claim C7 witness: a concrete zero-row table with one object column
and one numeric column classifies without error, and its object column
is `categorical`. -/
theorem getColumnTypes_empty_table_safe_witness :
    (∃ d, getColumnTypes [("a", ⟨Dtype.object, []⟩), ("b", ⟨Dtype.numeric, []⟩)] =
      Except.ok d) ∧
    (∀ p ∈ [(("a" : String), (⟨Dtype.object, []⟩ : PColumn)),
            ("b", ⟨Dtype.numeric, []⟩)], (Prod.snd p).dtype = Dtype.object →
      classifyColumn (Prod.snd p) = Except.ok ColType.categorical) :=
  getColumnTypes_empty_table_safe
    [("a", ⟨Dtype.object, []⟩), ("b", ⟨Dtype.numeric, []⟩)]
    (by intro p hp; fin_cases hp <;> rfl)

end Classifier

namespace Store

/-- A JSON scalar as produced by `DataFrame.to_json(orient="records",
date_format="iso")`: numbers, strings (datetimes are ISO strings),
booleans, or `null` for a missing cell. -/
inductive JVal where
  | num (q : ℚ)
  | str (s : String)
  | boolVal (b : Bool)
  | null
deriving DecidableEq, Repr

/-- A table: named columns in order, and rows aligned by position. -/
structure PTable where
  cols : List String
  rows : List (List JVal)
deriving DecidableEq, Repr

/-- `dataframe.to_json(orient="records")` (src/utils/database.py,
`save_dataset`): one JSON object per row, keys in column order. -/
def toJsonRecords (t : PTable) : List (List (String × JVal)) :=
  t.rows.map (fun r => t.cols.zip r)

/-- Value of key `k` in a parsed record; a key absent from a record
becomes a missing cell, as in `pd.DataFrame(records)`. -/
def lookupJ (k : String) (r : List (String × JVal)) : JVal :=
  match r.find? (fun p => p.1 == k) with
  | some p => p.2
  | none => JVal.null

/-- `pd.read_json(..., orient="records")` (src/utils/database.py,
`get_dataset`): an empty array yields an empty frame with no columns;
otherwise the columns are the first record's keys and each row is read
off by key. -/
def readJsonRecords (recs : List (List (String × JVal))) : PTable :=
  match recs with
  | [] => ⟨[], []⟩
  | r0 :: _ =>
    ⟨r0.map Prod.fst, recs.map (fun r => (r0.map Prod.fst).map (fun k => lookupJ k r))⟩

/-- A row of the `datasets` table (src/utils/database.py, class
`Dataset`). -/
structure DSRecord where
  id : ℕ
  name : String
  description : String
  filename : String
  created_at : ℕ
  updated_at : ℕ
  data : List (List (String × JVal))
  column_types : List (String × String)
deriving DecidableEq, Repr

/-- Fresh autoincrement primary key: one past the largest id in use. -/
def nextId (st : List DSRecord) : ℕ :=
  (st.map (fun r => r.id)).foldr max 0 + 1

/-- `save_dataset` (src/utils/database.py lines 43-76): serialize the
table and the column-type map, insert a new record, return its id. -/
def saveDataset (st : List DSRecord) (name description filename : String)
    (t : PTable) (ct : List (String × String)) (now : ℕ) :
    List DSRecord × ℕ :=
  let rid := nextId st
  (st ++ [⟨rid, name, description, filename, now, now, toJsonRecords t, ct⟩], rid)

/-- The dictionary returned by `get_dataset`. -/
structure GetResult where
  id : ℕ
  name : String
  description : String
  filename : String
  created_at : ℕ
  updated_at : ℕ
  dataframe : PTable
  column_types : List (String × String)
deriving DecidableEq, Repr

/-- `get_dataset` (src/utils/database.py lines 104-136): find the
record by id and deserialize its table. -/
def getDataset (st : List DSRecord) (rid : ℕ) : Option GetResult :=
  match st.find? (fun r => r.id == rid) with
  | none => none
  | some r =>
    some ⟨r.id, r.name, r.description, r.filename, r.created_at, r.updated_at,
          readJsonRecords r.data, r.column_types⟩

/-- Python truthiness of `if name:` in `update_dataset`: `None` and
`""` leave the field unchanged. -/
def truthyUpdate (cur : String) (new? : Option String) : String :=
  match new? with
  | some s => if s = "" then cur else s
  | none => cur

/-- The field mutations performed by `update_dataset` on the fetched
record: name and description when truthy, and the updated timestamp. -/
def applyMetaUpdate (r : DSRecord) (name? description? : Option String)
    (now : ℕ) : DSRecord :=
  { r with
    name := truthyUpdate r.name name?
    description := truthyUpdate r.description description?
    updated_at := now }

/-- Update the first record matching `rid` (the `.first()` query);
report whether one was found. -/
def updateFirst (f : DSRecord → DSRecord) (rid : ℕ) :
    List DSRecord → Bool × List DSRecord
  | [] => (false, [])
  | r :: rs =>
    if r.id = rid then (true, f r :: rs)
    else ((updateFirst f rid rs).1, r :: (updateFirst f rid rs).2)

/-- `update_dataset` (src/utils/database.py lines 159-184). -/
def updateDataset (st : List DSRecord) (rid : ℕ)
    (name? description? : Option String) (now : ℕ) : Bool × List DSRecord :=
  updateFirst (fun r => applyMetaUpdate r name? description? now) rid st

/-- The fields `update_dataset` must never touch. -/
def frozenPart (r : DSRecord) :
    ℕ × String × ℕ × List (List (String × JVal)) × List (String × String) :=
  (r.id, r.filename, r.created_at, r.data, r.column_types)

end Store

namespace Store

/-- Claim C8: UpdateMetadata changes at most name, description and the
last-updated timestamp: across the whole store, every record's id,
filename, creation timestamp, serialized table data and column-type
mapping are exactly as before the call (and no record is added or
removed). -/
theorem updateDataset_frame (st : List DSRecord) (rid : ℕ)
    (name? description? : Option String) (now : ℕ) :
    ((updateDataset st rid name? description? now).2).map frozenPart =
      st.map frozenPart := by
  unfold updateDataset
  induction st with
  | nil => rfl
  | cons r rs ih =>
    by_cases h : r.id = rid
    · simp [updateFirst, h, frozenPart, applyMetaUpdate]
    · simp [updateFirst, h, ih]

/-- Every record's id is at most the running maximum. -/
theorem mem_le_foldr_max (l : List ℕ) (x : ℕ) (hx : x ∈ l) :
    x ≤ l.foldr max 0 := by
  induction l with
  | nil => cases hx
  | cons a tl ih =>
    rcases List.mem_cons.mp hx with h | h
    · subst h; exact le_max_left _ _
    · exact le_trans (ih h) (le_max_right _ _)

/-- The id returned by Save is fresh: no pre-existing record has it. -/
theorem nextId_fresh (st : List DSRecord) (r : DSRecord) (hr : r ∈ st) :
    r.id ≠ nextId st := by
  have h := mem_le_foldr_max (st.map (fun r => r.id)) r.id
    (List.mem_map_of_mem _ hr)
  unfold nextId
  omega

/-- `find?` over an append whose left part has no match. -/
theorem find?_append_last {α : Type} (p : α → Bool) (l : List α) (x : α)
    (h : ∀ a ∈ l, p a = false) :
    List.find? p (l ++ [x]) = if p x then some x else none := by
  induction l with
  | nil => cases hx : p x <;> simp [List.find?, hx]
  | cons a tl ih =>
    have ha : p a = false := h a (by simp)
    simp only [List.cons_append, List.find?, ha]
    exact ih (fun b hb => h b (by simp [hb]))

/-- Reading a row back by key recovers the row, given unique column
names and a row of matching width. -/
theorem map_lookupJ_zip (cols : List String) (r : List JVal)
    (hnodup : cols.Nodup) (hlen : r.length = cols.length) :
    cols.map (fun k => lookupJ k (cols.zip r)) = r := by
  induction cols generalizing r with
  | nil =>
    cases r with
    | nil => rfl
    | cons v vs => simp at hlen
  | cons k ks ih =>
    cases r with
    | nil => simp at hlen
    | cons v vs =>
      have hk : k ∉ ks := (List.nodup_cons.mp hnodup).1
      have hks : ks.Nodup := (List.nodup_cons.mp hnodup).2
      have hlen' : vs.length = ks.length := by simpa using hlen
      simp only [List.zip_cons_cons, List.map_cons]
      have hhead : lookupJ k ((k, v) :: ks.zip vs) = v := by
        simp [lookupJ, List.find?]
      have step : ∀ k' ∈ ks,
          lookupJ k' ((k, v) :: ks.zip vs) = lookupJ k' (ks.zip vs) := by
        intro k' hk'
        have hne : (k == k') = false := by
          simp only [beq_eq_false_iff_ne]
          intro he; exact hk (he ▸ hk')
        simp [lookupJ, List.find?, hne]
      rw [hhead, List.map_congr_left step, ih vs hks hlen']

/-- Deserializing a serialized table is the identity on tables with at
least one row, uniquely named columns, and well-formed rows. -/
theorem read_toJsonRecords (t : PTable) (hrows : t.rows ≠ [])
    (hnodup : t.cols.Nodup)
    (hlen : ∀ r ∈ t.rows, r.length = t.cols.length) :
    readJsonRecords (toJsonRecords t) = t := by
  obtain ⟨cols, rows⟩ := t
  simp only at hrows hnodup hlen
  obtain ⟨r0, rest, hr⟩ := List.exists_cons_of_ne_nil hrows
  subst hr
  have hr0len : cols.length ≤ r0.length :=
    le_of_eq (hlen r0 (by simp)).symm
  have hfst : (cols.zip r0).map Prod.fst = cols :=
    List.map_fst_zip _ _ hr0len
  have hreduce : readJsonRecords ((cols.zip r0) ::
      rest.map (fun r => cols.zip r)) =
      ⟨(cols.zip r0).map Prod.fst,
       ((cols.zip r0) :: rest.map (fun r => cols.zip r)).map
         (fun r => ((cols.zip r0).map Prod.fst).map (fun k => lookupJ k r))⟩ :=
    rfl
  show readJsonRecords ((r0 :: rest).map (fun r => cols.zip r)) = ⟨cols, r0 :: rest⟩
  rw [List.map_cons, hreduce, hfst]
  simp only [PTable.mk.injEq, true_and]
  rw [List.map_cons, List.map_map]
  have hhead : cols.map (fun k => lookupJ k (cols.zip r0)) = r0 :=
    map_lookupJ_zip cols r0 hnodup (hlen r0 (by simp))
  have htail : rest.map ((fun r => cols.map (fun k => lookupJ k r)) ∘
      (fun r => cols.zip r)) = rest := by
    have step : ∀ r ∈ rest,
        ((fun r => cols.map (fun k => lookupJ k r)) ∘
          (fun r => cols.zip r)) r = id r := by
      intro r hrm
      exact map_lookupJ_zip cols r hnodup (hlen r (by simp [hrm]))
    rw [List.map_congr_left step, List.map_id]
  rw [hhead, htail]

/-- Claim C5, counterexample: a table with one column and zero rows
serializes to an empty JSON record array, from which Get cannot
recover the column: the round-tripped table has lost its column. -/
theorem save_get_zero_rows_counterexample :
    ((getDataset (saveDataset [] "n" "d" "f" ⟨["a"], []⟩ [] 0).1
        (saveDataset [] "n" "d" "f" ⟨["a"], []⟩ [] 0).2).map
      (fun g => g.dataframe)) = some ⟨[], []⟩ ∧
    (⟨[], []⟩ : PTable) ≠ ⟨["a"], []⟩ := by
  exact ⟨rfl, by decide⟩

/-- Claim C5 (amended): for every table with at least one row, unique
column names, and rows as wide as the column list, Save followed by
Get on the returned id yields a table identical in shape, column order
and values. -/
theorem save_get_roundtrip (st : List DSRecord)
    (name description filename : String) (t : PTable)
    (ct : List (String × String)) (now : ℕ)
    (hrows : t.rows ≠ []) (hnodup : t.cols.Nodup)
    (hlen : ∀ r ∈ t.rows, r.length = t.cols.length) :
    ∃ g, getDataset (saveDataset st name description filename t ct now).1
        (saveDataset st name description filename t ct now).2 = some g ∧
      g.dataframe = t := by
  unfold saveDataset getDataset
  simp only
  have hall : ∀ r ∈ st, ((fun r : DSRecord => r.id == nextId st) r) = false := by
    intro r hr
    simp only [beq_eq_false_iff_ne]
    exact nextId_fresh st r hr
  have hfind : List.find? (fun r : DSRecord => r.id == nextId st)
      (st ++ [⟨nextId st, name, description, filename, now, now,
        toJsonRecords t, ct⟩]) =
      some ⟨nextId st, name, description, filename, now, now,
        toJsonRecords t, ct⟩ := by
    rw [find?_append_last _ _ _ hall]
    simp
  rw [hfind]
  exact ⟨_, rfl, read_toJsonRecords t hrows hnodup hlen⟩

/-- Claim C5 witness: saving a concrete one-column, one-row table into
an empty store and getting it back returns the same table. -/
theorem save_get_roundtrip_witness :
    ∃ g, getDataset (saveDataset [] "n" "" "f" ⟨["a"], [[JVal.num 1]]⟩ [] 0).1
        (saveDataset [] "n" "" "f" ⟨["a"], [[JVal.num 1]]⟩ [] 0).2 = some g ∧
      g.dataframe = ⟨["a"], [[JVal.num 1]]⟩ :=
  save_get_roundtrip [] "n" "" "f" ⟨["a"], [[JVal.num 1]]⟩ [] 0
    (by decide) (by decide) (by decide)

end Store

namespace Stats

/-- `Series.quantile(q)` with the default linear interpolation
(numpy): on the ascending sorted non-missing values, position
`h = q*(n-1)`, value `s[⌊h⌋] + (h-⌊h⌋)·(s[⌊h⌋+1] - s[⌊h⌋])`. -/
def quantileLin (vs : List ℚ) (q : ℚ) : ℚ :=
  let s := vs.insertionSort (· ≤ ·)
  let n := s.length
  let h := q * ((n : ℚ) - 1)
  let i := (⌊h⌋).toNat
  let g := h - (i : ℚ)
  s.getD i 0 + g * (s.getD (i + 1) (s.getD i 0) - s.getD i 0)

/-- The IQR outlier step of `analyze_distributions`
(src/utils/statistics.py lines 135-141): values strictly outside
`[Q1 - 1.5*IQR, Q3 + 1.5*IQR]`.  A NaN cell compares false on both
sides, so only non-missing values can be flagged. -/
def iqrOutliers (col : List (Option ℚ)) : List ℚ :=
  let vs := dropNa col
  let q1 := quantileLin vs (1/4)
  let q3 := quantileLin vs (3/4)
  let iqr := q3 - q1
  let lb := q1 - 3/2 * iqr
  let ub := q3 + 3/2 * iqr
  vs.filter (fun v => decide (v < lb) || decide (ub < v))

/-- `outliers_count` (line 142). -/
def outliersCount (col : List (Option ℚ)) : ℕ :=
  (iqrOutliers col).length

/-- `outliers_percentage` (line 143): relative to `data[col].count()`,
the non-missing count. -/
def outliersPct (col : List (Option ℚ)) : ℚ :=
  ((iqrOutliers col).length : ℚ) / ((dropNa col).length : ℚ) * 100

/-- Claim C9: on the column [1,2,3,4,5,100] the IQR rule flags exactly
the value 100 (Q1 = 2.25, Q3 = 4.75, bounds [-1.5, 8.5]), and the
outlier percentage is 1/6 of the non-missing count, i.e. 50/3 %. -/
theorem iqr_outliers_example :
    iqrOutliers ([1, 2, 3, 4, 5, 100].map some) = [100] ∧
    outliersCount ([1, 2, 3, 4, 5, 100].map some) = 1 ∧
    outliersPct ([1, 2, 3, 4, 5, 100].map some) = 50/3 := by
  have hd : dropNa ([1, 2, 3, 4, 5, 100].map some) = ([1,2,3,4,5,100] : List ℚ) := rfl
  have hsort : (([1,2,3,4,5,100] : List ℚ).insertionSort (· ≤ ·)) =
      [1,2,3,4,5,100] := by decide
  have hq1 : quantileLin [1,2,3,4,5,100] (1/4) = 9/4 := by
    simp only [quantileLin, hsort]
    norm_num
  have hq3 : quantileLin [1,2,3,4,5,100] (3/4) = 19/4 := by
    simp only [quantileLin, hsort]
    norm_num [show Int.toNat 3 = 3 from rfl]
  have hout : iqrOutliers ([1, 2, 3, 4, 5, 100].map some) = [100] := by
    simp only [iqrOutliers, hd, hq1, hq3]
    norm_num [List.filter]
  refine ⟨hout, ?_, ?_⟩
  · unfold outliersCount
    rw [hout]
    rfl
  · unfold outliersPct
    rw [hout, hd]
    norm_num

end Stats

namespace Stats

/-- Arithmetic mean, `Series.mean()` on the non-missing values. -/
noncomputable def meanR (vs : List ℝ) : ℝ :=
  vs.sum / (vs.length : ℝ)

/-- A pandas float cell: a finite real or one of the IEEE non-finite
values that numpy arithmetic produces. -/
inductive PyFloat where
  | finite (x : ℝ)
  | inf
  | negInf
  | nan

/-- The float is an ordinary finite number. -/
def isFiniteF : PyFloat → Prop
  | PyFloat.finite _ => True
  | _ => False

/-- numpy float division, including division by zero: `x/0` is
`±inf` for `x ≠ 0` and `nan` for `x = 0`; `nan` propagates. -/
noncomputable def pyDiv : PyFloat → PyFloat → PyFloat
  | PyFloat.finite a, PyFloat.finite b =>
    if b = 0 then
      (if a = 0 then PyFloat.nan else if 0 < a then PyFloat.inf else PyFloat.negInf)
    else PyFloat.finite (a / b)
  | PyFloat.nan, _ => PyFloat.nan
  | _, PyFloat.nan => PyFloat.nan
  | PyFloat.finite _, PyFloat.inf => PyFloat.finite 0
  | PyFloat.finite _, PyFloat.negInf => PyFloat.finite 0
  | PyFloat.inf, PyFloat.finite b => if b < 0 then PyFloat.negInf else PyFloat.inf
  | PyFloat.negInf, PyFloat.finite b => if b < 0 then PyFloat.inf else PyFloat.negInf
  | PyFloat.inf, PyFloat.inf => PyFloat.nan
  | PyFloat.inf, PyFloat.negInf => PyFloat.nan
  | PyFloat.negInf, PyFloat.inf => PyFloat.nan
  | PyFloat.negInf, PyFloat.negInf => PyFloat.nan

/-- numpy multiplication of a float by a finite scalar. -/
noncomputable def pyMulFin : PyFloat → ℝ → PyFloat
  | PyFloat.finite a, c => PyFloat.finite (a * c)
  | PyFloat.inf, c =>
    if c = 0 then PyFloat.nan else if 0 < c then PyFloat.inf else PyFloat.negInf
  | PyFloat.negInf, c =>
    if c = 0 then PyFloat.nan else if 0 < c then PyFloat.negInf else PyFloat.inf
  | PyFloat.nan, _ => PyFloat.nan

/-- `round(3)` on a float cell: non-finite values pass through. -/
noncomputable def round3F : PyFloat → PyFloat
  | PyFloat.finite a => PyFloat.finite (((round (a * 1000) : ℤ) : ℝ) / 1000)
  | f => f

/-- `groupby(group_column)[numeric_column]` for one group key: the
non-missing numeric values of the rows whose key equals `g`. -/
def groupVals (data : List (String × Option ℝ)) (g : String) : List ℝ :=
  dropNa ((data.filter (fun p => p.1 == g)).map (fun p => p.2))

/-- Per-group `mean` as pandas computes it (NaN on an empty group). -/
noncomputable def pyMean (vs : List ℝ) : PyFloat :=
  if vs.length = 0 then PyFloat.nan else PyFloat.finite (meanR vs)

/-- Sample variance (`ddof=1`), the input to the group `std`. -/
noncomputable def varSample (vs : List ℝ) : ℝ :=
  (vs.map (fun x => (x - meanR vs)^2)).sum / ((vs.length : ℝ) - 1)

/-- Per-group `std` as pandas computes it: NaN for fewer than two
observations, else the square root of the sample variance. -/
noncomputable def pyStd (vs : List ℝ) : PyFloat :=
  if vs.length ≤ 1 then PyFloat.nan else PyFloat.finite (Real.sqrt (varSample vs))

/-- The `cv` column of `calculate_statistics_by_group`
(src/utils/statistics.py lines 178-183): `std / mean * 100`, then
rounded to 3 decimals with the other numeric columns. -/
noncomputable def groupCV (vs : List ℝ) : PyFloat :=
  round3F (pyMulFin (pyDiv (pyStd vs) (pyMean vs)) 100)

/-- The `cv` value reported for group `g` of a grouped-statistics
call. -/
noncomputable def cvByGroup (data : List (String × Option ℝ)) (g : String) : PyFloat :=
  groupCV (groupVals data g)

/-- Dividing any float by a finite zero never yields a finite value. -/
theorem pyDiv_finite_zero_not_finite (f : PyFloat) :
    ¬ isFiniteF (pyDiv f (PyFloat.finite 0)) := by
  cases f with
  | finite a =>
    by_cases ha : a = 0
    · simp [pyDiv, ha, isFiniteF]
    · by_cases hp : 0 < a <;> simp [pyDiv, ha, hp, isFiniteF]
  | inf =>
    by_cases h : (0 : ℝ) < 0 <;> simp [pyDiv, isFiniteF, h]
  | negInf =>
    by_cases h : (0 : ℝ) < 0 <;> simp [pyDiv, isFiniteF, h]
  | nan => simp [pyDiv, isFiniteF]

/-- Scaling a non-finite float keeps it non-finite. -/
theorem pyMulFin_not_finite (f : PyFloat) (c : ℝ) (h : ¬ isFiniteF f) :
    ¬ isFiniteF (pyMulFin f c) := by
  cases f with
  | finite a => exact absurd trivial h
  | inf =>
    by_cases h0 : c = 0
    · simp [pyMulFin, h0, isFiniteF]
    · by_cases hp : 0 < c <;> simp [pyMulFin, h0, hp, isFiniteF]
  | negInf =>
    by_cases h0 : c = 0
    · simp [pyMulFin, h0, isFiniteF]
    · by_cases hp : 0 < c <;> simp [pyMulFin, h0, hp, isFiniteF]
  | nan => simp [pyMulFin, isFiniteF]

/-- Rounding keeps a non-finite float non-finite. -/
theorem round3F_not_finite (f : PyFloat) (h : ¬ isFiniteF f) :
    ¬ isFiniteF (round3F f) := by
  cases f with
  | finite a => exact absurd trivial h
  | inf => simp [round3F, isFiniteF]
  | negInf => simp [round3F, isFiniteF]
  | nan => simp [round3F, isFiniteF]

/-- Claim C2, counterexample: for the group with values [-1, 0, 1]
(mean exactly 0, std exactly 1) the reported coefficient of variation
is the silent non-finite value `inf` — there is no "undefined" marker
anywhere in the output type. -/
theorem cvByGroup_zero_mean_counterexample :
    cvByGroup [("B", some (-1)), ("B", some 0), ("B", some 1)] "B" = PyFloat.inf := by
  have hvals : groupVals [("B", some (-1)), ("B", some 0), ("B", some 1)] "B" =
      [-1, 0, 1] := by
    simp [groupVals, dropNa, List.filter]
  have hmean : meanR [-1, 0, 1] = 0 := by
    norm_num [meanR]
  have hvar : varSample [-1, 0, 1] = 1 := by
    norm_num [varSample, hmean]
  have hstd : pyStd [-1, 0, 1] = PyFloat.finite 1 := by
    simp [pyStd, hvar, Real.sqrt_one]
  have hm : pyMean [-1, 0, 1] = PyFloat.finite 0 := by
    simp [pyMean, hmean]
  unfold cvByGroup groupCV
  rw [hvals, hstd, hm]
  norm_num [pyDiv, pyMulFin, round3F]

/-- Claim C2 (amended): whenever a group's mean is exactly zero, the
reported coefficient of variation is non-finite (NaN or ±Infinity) —
it is silently propagated, with no explicit "undefined" marker. -/
theorem cvByGroup_zero_mean_not_finite (data : List (String × Option ℝ))
    (g : String) (hne : groupVals data g ≠ [])
    (hmean : meanR (groupVals data g) = 0) :
    ¬ isFiniteF (cvByGroup data g) := by
  have hm : pyMean (groupVals data g) = PyFloat.finite 0 := by
    simp [pyMean, List.length_eq_zero, hne, hmean]
  unfold cvByGroup groupCV
  rw [hm]
  exact round3F_not_finite _ (pyMulFin_not_finite _ _ (pyDiv_finite_zero_not_finite _))

/-- Claim C2 witness: the single-row group [("A", 0)] has mean 0, and
its coefficient of variation is indeed non-finite. -/
theorem cvByGroup_zero_mean_not_finite_witness :
    ¬ isFiniteF (cvByGroup [("A", some 0)] "A") :=
  cvByGroup_zero_mean_not_finite [("A", some 0)] "A"
    (by simp [groupVals, dropNa, List.filter])
    (by simp [groupVals, dropNa, List.filter, meanR])

end Stats

namespace Stats

/-- Row-aligned pairs where both cells are non-missing — the pairwise
complete observations pandas/numpy correlation works on. -/
def validPairs (xs ys : List (Option ℝ)) : List (ℝ × ℝ) :=
  (xs.zip ys).filterMap (fun p =>
    match p with
    | (some a, some b) => some (a, b)
    | _ => none)

/-- Population variance of a list of reals. -/
noncomputable def varP (vs : List ℝ) : ℝ :=
  (vs.map (fun x => (x - meanR vs)^2)).sum / (vs.length : ℝ)

/-- Population covariance of a list of pairs. -/
noncomputable def covP (ps : List (ℝ × ℝ)) : ℝ :=
  (ps.map (fun p =>
    (p.1 - meanR (ps.map Prod.fst)) * (p.2 - meanR (ps.map Prod.snd)))).sum /
    (ps.length : ℝ)

/-- Pearson correlation of a list of pairs:
`cov / (std(first) * std(second))`. -/
noncomputable def pearsonPairs (ps : List (ℝ × ℝ)) : ℝ :=
  covP ps / (Real.sqrt (varP (ps.map Prod.fst)) * Real.sqrt (varP (ps.map Prod.snd)))

/-- `.round(3)`: round to 3 decimal places. -/
noncomputable def round3 (x : ℝ) : ℝ :=
  ((round (x * 1000) : ℤ) : ℝ) / 1000

/-- One rounded entry of `data[numeric_columns].corr().round(3)`. -/
noncomputable def corrEntry (c1 c2 : List (Option ℝ)) : ℝ :=
  round3 (pearsonPairs (validPairs c1 c2))

/-- Result of `generate_correlation_matrix`: either the informational
single-row frame or the rounded correlation matrix. -/
inductive CorrResult where
  | message (m : String)
  | matrix (m : List (List ℝ))

/-- `generate_correlation_matrix(data, numeric_columns)`
(src/utils/statistics.py lines 52-77). -/
noncomputable def generateCorrelationMatrix (cols : List (List (Option ℝ))) :
    CorrResult :=
  if cols.length < 2 then
    CorrResult.message "Need at least 2 numeric columns for correlation analysis"
  else
    CorrResult.matrix (cols.map (fun ci => cols.map (fun cj => corrEntry ci cj)))

/-- Swapping the two columns swaps each valid pair. -/
theorem validPairs_swap (xs ys : List (Option ℝ)) :
    validPairs ys xs = (validPairs xs ys).map Prod.swap := by
  induction xs generalizing ys with
  | nil => cases ys <;> rfl
  | cons x xt ih =>
    cases ys with
    | nil => rfl
    | cons y yt =>
      have ih' := ih yt
      cases x <;> cases y <;>
        simp only [validPairs, List.zip_cons_cons, List.filterMap_cons] at ih' ⊢ <;>
        simp [ih']

/-- Pairing a column against itself pairs each non-missing value with
itself. -/
theorem validPairs_self (c : List (Option ℝ)) :
    validPairs c c = (dropNa c).map (fun v => (v, v)) := by
  induction c with
  | nil => rfl
  | cons x t ih =>
    cases x <;>
      simp only [validPairs, dropNa, List.zip_cons_cons, List.filterMap_cons,
        List.filterMap_cons, List.map_cons] at ih ⊢ <;>
      simp [ih]

/-- A population variance is nonnegative. -/
theorem varP_nonneg (vs : List ℝ) : 0 ≤ varP vs := by
  unfold varP
  apply div_nonneg
  · apply List.sum_nonneg
    intro x hx
    obtain ⟨y, _, rfl⟩ := List.mem_map.mp hx
    positivity
  · positivity

/-- Covariance is invariant under swapping the pair components. -/
theorem covP_swap (ps : List (ℝ × ℝ)) : covP (ps.map Prod.swap) = covP ps := by
  unfold covP
  simp only [List.map_map, List.length_map]
  have hfs : (Prod.fst ∘ Prod.swap : ℝ × ℝ → ℝ) = Prod.snd := rfl
  have hsn : (Prod.snd ∘ Prod.swap : ℝ × ℝ → ℝ) = Prod.fst := rfl
  rw [hfs, hsn]
  congr 1
  refine congrArg List.sum (List.map_congr_left fun p _ => ?_)
  simp only [Function.comp_apply, Prod.fst_swap, Prod.snd_swap]
  ring

/-- Pearson correlation is symmetric in the two coordinates. -/
theorem pearsonPairs_swap (ps : List (ℝ × ℝ)) :
    pearsonPairs (ps.map Prod.swap) = pearsonPairs ps := by
  unfold pearsonPairs
  rw [covP_swap]
  simp only [List.map_map]
  have hfs : (Prod.fst ∘ Prod.swap : ℝ × ℝ → ℝ) = Prod.snd := rfl
  have hsn : (Prod.snd ∘ Prod.swap : ℝ × ℝ → ℝ) = Prod.fst := rfl
  rw [hfs, hsn]
  ring

/-- A rounded correlation entry is symmetric in its two columns. -/
theorem corrEntry_symm (c1 c2 : List (Option ℝ)) :
    corrEntry c1 c2 = corrEntry c2 c1 := by
  unfold corrEntry
  rw [validPairs_swap c1 c2, pearsonPairs_swap]

/-- Self-covariance of duplicated values is the variance. -/
theorem covP_self_pairs (vs : List ℝ) :
    covP (vs.map (fun v => (v, v))) = varP vs := by
  unfold covP varP
  simp only [List.map_map, List.length_map]
  have h1 : (Prod.fst ∘ (fun v : ℝ => (v, v))) = id := rfl
  have h2 : (Prod.snd ∘ (fun v : ℝ => (v, v))) = id := rfl
  rw [h1, h2, List.map_id]
  congr 1
  refine congrArg List.sum (List.map_congr_left fun v _ => ?_)
  simp only [Function.comp_apply]
  ring

/-- The Pearson correlation of a column with itself is 1 whenever the
column's (non-missing) variance is non-zero. -/
theorem pearsonPairs_self (c : List (Option ℝ)) (h : varP (dropNa c) ≠ 0) :
    pearsonPairs (validPairs c c) = 1 := by
  rw [validPairs_self]
  unfold pearsonPairs
  simp only [List.map_map]
  have h1 : (Prod.fst ∘ (fun v : ℝ => (v, v))) = id := rfl
  have h2 : (Prod.snd ∘ (fun v : ℝ => (v, v))) = id := rfl
  rw [h1, h2, List.map_id, covP_self_pairs,
      Real.mul_self_sqrt (varP_nonneg (dropNa c))]
  exact div_self h

/-- Rounding 1 to three decimals is 1. -/
theorem round3_one : round3 1 = 1 := by
  unfold round3
  norm_num

/-- `getD` commutes with `map` at in-range indices. -/
theorem getD_map_lt {α β : Type} (f : α → β) (l : List α) (d : β) (e : α) :
    ∀ i, i < l.length → (l.map f).getD i d = f (l.getD i e) := by
  induction l with
  | nil => intro i hi; simp at hi
  | cons a t ih =>
    intro i hi
    cases i with
    | zero => rfl
    | succ n =>
      have hn : n < t.length := by simpa using hi
      simpa [List.getD] using ih n hn

end Stats

namespace Stats

/-- Claim C4: with fewer than 2 numeric columns the correlation
operation returns the informational row; with 2 or more columns the
result is a matrix whose entries are the 3-decimal-rounded pairwise
Pearson correlations, which is symmetric, and which has 1 at every
diagonal position whose column has non-zero variance. -/
theorem generateCorrelationMatrix_spec (cols : List (List (Option ℝ))) :
    (cols.length < 2 →
      generateCorrelationMatrix cols =
        CorrResult.message "Need at least 2 numeric columns for correlation analysis") ∧
    (2 ≤ cols.length →
      ∃ m, generateCorrelationMatrix cols = CorrResult.matrix m ∧
        (∀ i j, i < cols.length → j < cols.length →
          (m.getD i []).getD j 0 = (m.getD j []).getD i 0) ∧
        (∀ i, i < cols.length → varP (dropNa (cols.getD i [])) ≠ 0 →
          (m.getD i []).getD i 0 = 1) ∧
        (∀ i j, i < cols.length → j < cols.length →
          (m.getD i []).getD j 0 =
            round3 (pearsonPairs (validPairs (cols.getD i []) (cols.getD j []))))) := by
  have hentry : ∀ i j, i < cols.length → j < cols.length →
      (((cols.map (fun ci => cols.map (fun cj => corrEntry ci cj))).getD i []).getD j 0) =
        corrEntry (cols.getD i []) (cols.getD j []) := by
    intro i j hi hj
    rw [getD_map_lt (fun ci => cols.map (fun cj => corrEntry ci cj)) cols [] [] i hi]
    rw [getD_map_lt (fun cj => corrEntry (cols.getD i []) cj) cols 0 [] j hj]
  constructor
  · intro h
    unfold generateCorrelationMatrix
    rw [if_pos h]
  · intro h
    have hnot : ¬ cols.length < 2 := by omega
    refine ⟨cols.map (fun ci => cols.map (fun cj => corrEntry ci cj)), ?_, ?_, ?_, ?_⟩
    · unfold generateCorrelationMatrix
      rw [if_neg hnot]
    · intro i j hi hj
      rw [hentry i j hi hj, hentry j i hj hi, corrEntry_symm]
    · intro i hi hvar
      rw [hentry i i hi hi]
      unfold corrEntry
      rw [pearsonPairs_self _ hvar, round3_one]
    · intro i j hi hj
      rw [hentry i j hi hj]
      rfl

/-- Claim C4 witness: for the concrete columns [1,2] and [2,3] the
matrix branch is taken, the (0,1)/(1,0) entries agree, and the (0,0)
entry is 1. -/
theorem generateCorrelationMatrix_spec_witness :
    ∃ m, generateCorrelationMatrix [[some (1:ℝ), some 2], [some 2, some 3]] =
        CorrResult.matrix m ∧
      (m.getD 0 []).getD 1 0 = (m.getD 1 []).getD 0 0 ∧
      (m.getD 0 []).getD 0 0 = 1 := by
  have hvar : varP (dropNa (([[some (1:ℝ), some 2], [some 2, some 3]] :
      List (List (Option ℝ))).getD 0 [])) ≠ 0 := by
    have hd : dropNa (([[some (1:ℝ), some 2], [some 2, some 3]] :
        List (List (Option ℝ))).getD 0 []) = [1, 2] := rfl
    rw [hd]
    norm_num [varP, meanR]
  obtain ⟨m, hm, hsymm, hdiag, _⟩ :=
    (generateCorrelationMatrix_spec [[some (1:ℝ), some 2], [some 2, some 3]]).2
      (by decide)
  exact ⟨m, hm, hsymm 0 1 (by decide) (by decide), hdiag 0 (by decide) hvar⟩

end Stats

namespace Charts

open Stats

/-- Outcome of the trendline block of `create_scatter_plot`. -/
inductive TrendResult where
  | noTrend
  | trend (slope intercept corr : ℝ)
  | valueError

/-- Slope of `np.polyfit(x, y, 1)`: the least-squares line
`cov(x,y)/var(x)`. -/
noncomputable def polyfitSlope (xs ys : List ℝ) : ℝ :=
  covP (xs.zip ys) / varP xs

/-- Intercept of `np.polyfit(x, y, 1)`. -/
noncomputable def polyfitIntercept (xs ys : List ℝ) : ℝ :=
  meanR ys - polyfitSlope xs ys * meanR xs

/-- `np.corrcoef(x, y)[0, 1]` for equal-length arrays. -/
noncomputable def corrcoefR (xs ys : List ℝ) : ℝ :=
  pearsonPairs (xs.zip ys)

/-- The no-color-column trendline block of `create_scatter_plot`
(src/utils/visualization.py lines 55-84).

The code drops missing values from the x column and the y column
SEPARATELY (`x_values = data[x_col].dropna()`,
`y_values = data[y_col].dropna()`).  After `dropna` neither series
contains NaN, so `np.isnan(x_values)` and `np.isnan(y_values)` are
all-False boolean series; their `|` aligns the two (generally
different) index sets, missing positions become NaN which pandas
logical-or treats as False, so `mask = ~(...)` is all-True over the
union of the two index sets.  Hence `mask.sum()` is the size of that
union (at least `max(len(x_values), len(y_values))`), and
`x_clean = x_values[mask]`, `y_clean = y_values[mask]` select
everything: `x_clean = x_values` and `y_clean = y_values`.  The block
therefore proceeds exactly when both dropna'd series have length > 1;
`np.corrcoef` then raises ValueError if the two series ended up with
different lengths, and otherwise positionally pairs values that came
from different rows. -/
noncomputable def scatterTrendline (xs ys : List (Option ℝ)) : TrendResult :=
  if 1 < (dropNa xs).length ∧ 1 < (dropNa ys).length then
    (if (dropNa xs).length = (dropNa ys).length then
      TrendResult.trend (polyfitSlope (dropNa xs) (dropNa ys))
        (polyfitIntercept (dropNa xs) (dropNa ys))
        (corrcoefR (dropNa xs) (dropNa ys))
    else TrendResult.valueError)
  else TrendResult.noTrend

/-- Claim C3: with x = [1, 2, missing] and y = [missing, 5, 6] there
is exactly ONE row-aligned pair with both values present — (2, 5) —
so the claimed behavior is to skip the trendline; the code instead
pairs the misaligned values (1,5) and (2,6) and draws a trendline with
slope 1, intercept 4 and correlation 1. -/
theorem scatterTrendline_misaligned_example :
    scatterTrendline [some 1, some 2, none] [none, some 5, some 6] =
      TrendResult.trend 1 4 1 ∧
    (validPairs [some 1, some 2, none] [none, some 5, some 6]).length = 1 := by
  have hx : dropNa [some (1:ℝ), some 2, none] = [1, 2] := rfl
  have hy : dropNa [none, some (5:ℝ), some 6] = [5, 6] := rfl
  have hzip : (([1, 2] : List ℝ).zip ([5, 6] : List ℝ)) = [(1, 5), (2, 6)] := rfl
  have hcov : covP [((1:ℝ), (5:ℝ)), (2, 6)] = 1/4 := by
    norm_num [covP, meanR]
  have hvarx : varP [(1:ℝ), 2] = 1/4 := by norm_num [varP, meanR]
  have hvary : varP [(5:ℝ), 6] = 1/4 := by norm_num [varP, meanR]
  have hslope : polyfitSlope [1, 2] [5, 6] = 1 := by
    unfold polyfitSlope
    rw [hzip, hcov, hvarx]
    norm_num
  have hint : polyfitIntercept [1, 2] [5, 6] = 4 := by
    unfold polyfitIntercept
    rw [hslope]
    norm_num [meanR]
  have hcorr : corrcoefR [1, 2] [5, 6] = 1 := by
    unfold corrcoefR pearsonPairs
    rw [hzip]
    rw [show (([((1:ℝ), (5:ℝ)), (2, 6)]).map Prod.fst) = [1, 2] from rfl,
        show (([((1:ℝ), (5:ℝ)), (2, 6)]).map Prod.snd) = [5, 6] from rfl,
        hcov, hvarx, hvary, Real.mul_self_sqrt (by norm_num : (0:ℝ) ≤ 1/4)]
    norm_num
  constructor
  · unfold scatterTrendline
    rw [hx, hy]
    rw [if_pos (by constructor <;> decide),
        if_pos (show ([(1:ℝ), 2]).length = ([(5:ℝ), 6]).length from rfl),
        hslope, hint, hcorr]
  · rfl

end Charts

namespace Stats

/-- The observations the normality test is run on: the non-missing
values, subsampled to 5000 via `sample(5000, random_state=42)` —
modelled by the deterministic function `sample5000` — when there are
more than 5000 of them. -/
def usedSample (sample5000 : List ℚ → List ℚ) (col : List (Option ℚ)) : List ℚ :=
  if 5000 < (dropNa col).length then sample5000 (dropNa col) else dropNa col

/-- The normality-test part of `analyze_distributions`
(src/utils/statistics.py lines 97-119).  A column whose values are all
NaN is skipped by the `continue` (result `none`); otherwise the
Shapiro-Wilk call — an external scipy function, modelled by the
parameter `shapiro`, with `Except.error` standing for a raised
exception — runs only when the sample has more than 3 observations,
and its exception is caught and recorded as "Test failed". -/
def analyzeNormality (shapiro : List ℚ → Except Unit ℚ)
    (sample5000 : List ℚ → List ℚ) (col : List (Option ℚ)) :
    Option (Option ℚ × String) :=
  if dropNa col = [] then none
  else if 3 < (usedSample sample5000 col).length then
    match shapiro (usedSample sample5000 col) with
    | Except.ok p => some (some p, if 1/20 < p then "Yes" else "No")
    | Except.error _ => some (none, "Test failed")
  else some (none, "Insufficient data")

/-- Claim C6, counterexample: a numeric column that is entirely
missing has 0 ≤ 3 non-missing values, yet it is skipped outright and
never marked "Insufficient data". -/
theorem analyzeNormality_all_missing_counterexample :
    analyzeNormality (fun _ => Except.ok 0) (fun s => s) [none] = none ∧
    (none : Option (Option ℚ × String)) ≠ some (none, "Insufficient data") := by
  exact ⟨rfl, by simp⟩

/-- Claim C6 (amended): for every numeric column that is not entirely
missing: with 3 or fewer non-missing values the result is
"Insufficient data" and no test runs; with more than 3 the test runs
on a sample of exactly `min(count, 5000)` of the column's non-missing
values, the verdict is "Yes" exactly when the p-value exceeds 0.05,
and an exception inside the test is caught as "Test failed" instead of
propagating.  An entirely-missing column is skipped with no marker. -/
theorem analyzeNormality_spec (shapiro : List ℚ → Except Unit ℚ)
    (sample5000 : List ℚ → List ℚ)
    (hlen : ∀ s : List ℚ, 5000 < s.length → (sample5000 s).length = 5000)
    (hmem : ∀ (s : List ℚ) (v : ℚ), v ∈ sample5000 s → v ∈ s)
    (col : List (Option ℚ)) :
    (dropNa col = [] → analyzeNormality shapiro sample5000 col = none) ∧
    (dropNa col ≠ [] → (dropNa col).length ≤ 3 →
      analyzeNormality shapiro sample5000 col = some (none, "Insufficient data")) ∧
    (3 < (dropNa col).length →
      (usedSample sample5000 col).length = min (dropNa col).length 5000 ∧
      (∀ v ∈ usedSample sample5000 col, v ∈ dropNa col) ∧
      (∀ p, shapiro (usedSample sample5000 col) = Except.ok p →
        analyzeNormality shapiro sample5000 col =
          some (some p, if 1/20 < p then "Yes" else "No") ∧
        ((if 1/20 < p then "Yes" else "No") = "Yes" ↔ 1/20 < p)) ∧
      (∀ e, shapiro (usedSample sample5000 col) = Except.error e →
        analyzeNormality shapiro sample5000 col = some (none, "Test failed"))) := by
  refine ⟨?_, ?_, ?_⟩
  · intro h
    simp [analyzeNormality, h]
  · intro hne hle
    have h5 : ¬ 5000 < (dropNa col).length := by omega
    have hs : usedSample sample5000 col = dropNa col := by
      unfold usedSample
      rw [if_neg h5]
    unfold analyzeNormality
    rw [if_neg hne, hs, if_neg (show ¬ 3 < (dropNa col).length by omega)]
  · intro h3
    have hne : dropNa col ≠ [] := by
      intro h0
      rw [h0] at h3
      simp at h3
    have hlen' : (usedSample sample5000 col).length = min (dropNa col).length 5000 := by
      unfold usedSample
      by_cases h5 : 5000 < (dropNa col).length
      · rw [if_pos h5, hlen _ h5]
        omega
      · rw [if_neg h5]
        omega
    have hgt : 3 < (usedSample sample5000 col).length := by
      rw [hlen']
      omega
    refine ⟨hlen', ?_, ?_, ?_⟩
    · intro v hv
      unfold usedSample at hv
      by_cases h5 : 5000 < (dropNa col).length
      · rw [if_pos h5] at hv
        exact hmem _ v hv
      · rw [if_neg h5] at hv
        exact hv
    · intro p hp
      constructor
      · unfold analyzeNormality
        rw [if_neg hne, if_pos hgt, hp]
      · constructor
        · intro hyes
          by_contra hnp
          rw [if_neg hnp] at hyes
          exact absurd hyes (by decide)
        · intro hlt
          rw [if_pos hlt]
    · intro e he
      unfold analyzeNormality
      rw [if_neg hne, if_pos hgt, he]

/-- Claim C6 witness: a concrete column with 5 values, the take-5000
subsampler and a stub test returning p = 0.1 yields the verdict
"Yes". -/
theorem analyzeNormality_spec_witness :
    analyzeNormality (fun _ => Except.ok (1/10)) (fun s => s.take 5000)
      [some 1, some 2, some 3, some 4, some 5] = some (some (1/10), "Yes") := by
  obtain ⟨-, -, hrun⟩ :=
    analyzeNormality_spec (fun _ => Except.ok (1/10)) (fun s => s.take 5000)
      (fun s hs => by rw [List.length_take]; omega)
      (fun s v hv => List.take_subset 5000 s hv)
      [some 1, some 2, some 3, some 4, some 5]
  obtain ⟨-, -, hok, -⟩ := hrun (by decide)
  refine ((hok (1/10) rfl).1).trans ?_
  rw [if_pos (show (1:ℚ)/20 < 1/10 by norm_num)]

end Stats

namespace Stats

/-- Python float comparison `c < s` where `s` may be NaN: false when
`s` is NaN. -/
def ltNan (a : ℝ) (b : Option ℝ) : Prop :=
  ∃ x, b = some x ∧ a < x

/-- Python float comparison `s < c` where `s` may be NaN. -/
def nanLT (a : Option ℝ) (b : ℝ) : Prop :=
  ∃ x, a = some x ∧ x < b

/-- Python float comparison `s ≤ c` where `s` may be NaN. -/
def nanLE (a : Option ℝ) (b : ℝ) : Prop :=
  ∃ x, a = some x ∧ x ≤ b

/-- Python float comparison `c ≤ s` where `s` may be NaN. -/
def leNan (a : ℝ) (b : Option ℝ) : Prop :=
  ∃ x, b = some x ∧ a ≤ x

open Classical in
/-- The skewness-interpretation chain of `analyze_distributions`
(src/utils/statistics.py lines 126-133), with `none` playing NaN:
`-0.5 < s < 0.5` → approximately symmetric, `-1 < s ≤ -0.5` or
`0.5 ≤ s < 1` → moderately skewed, anything else — including every
comparison failing on NaN — falls to the final branch. -/
noncomputable def skewInterp (s : Option ℝ) : String :=
  if ltNan (-(1/2)) s ∧ nanLT s (1/2) then "Approximately symmetric"
  else if (ltNan (-1) s ∧ nanLE s (-(1/2))) ∨ (leNan (1/2) s ∧ nanLT s 1) then
    "Moderately skewed"
  else "Highly skewed"

/-- `Series.skew()` as pandas `nanops.nanskew` computes it on the
non-missing values: NaN (`none`) when fewer than 3 observations,
0 when the second central moment is zero (constant column), else the
adjusted Fisher-Pearson coefficient
`count*sqrt(count-1)/(count-2) * m3/m2^1.5`. -/
noncomputable def pySkew (col : List (Option ℝ)) : Option ℝ :=
  let vs := dropNa col
  if vs.length < 3 then none
  else
    let m := meanR vs
    let m2 := (vs.map (fun x => (x - m)^2)).sum
    let m3 := (vs.map (fun x => (x - m)^3)).sum
    if m2 = 0 then some 0
    else some (((vs.length : ℝ) * Real.sqrt ((vs.length : ℝ) - 1) /
      ((vs.length : ℝ) - 2)) * (m3 / Real.sqrt (m2 ^ 3)))

/-- Claim C10: whenever the computed skewness is NaN — which happens
exactly for columns with 1 or 2 non-missing values, since a zero
second moment yields skewness 0, not NaN — the NaN fails both range
checks and the interpretation recorded is "Highly skewed". -/
theorem skewInterp_nan_highly_skewed (col : List (Option ℝ))
    (h : pySkew col = none) :
    skewInterp (pySkew col) = "Highly skewed" := by
  rw [h]
  simp [skewInterp, ltNan, nanLT, nanLE, leNan]

/-- Claim C10 witness: a column with a single non-missing value has
NaN skewness and is interpreted "Highly skewed". -/
theorem skewInterp_nan_highly_skewed_witness :
    skewInterp (pySkew [some 1, none]) = "Highly skewed" :=
  skewInterp_nan_highly_skewed [some 1, none] rfl

end Stats
